import Mathlib

/-!
# Verification of the sub2api canary-rollout metric guard

Shallow embedding of `tools/perf/openai_oauth_gray_guard.py` and
`tools/perf/openai_oauth_gray_drill.py`, and proofs of the specified
properties of the evaluator, the envelope/field parsers, the guard
runner's exit-status contract and the drill harness's verdict.

Modelling conventions:
* Python float values flowing through the guard are modelled exactly as
  `FloatVal`: a finite rational, a signed infinity, or NaN.  The guard only
  compares values with `<` / `>` and tests them for `None`, so exact
  rationals (without IEEE rounding) are a faithful carrier for every
  property proved here.
* JSON-decoded Python values are modelled by `Json`; a Python `dict` is an
  association list (first binding wins, as keys are unique in a decoded
  JSON object), and `dict.get(k)` returning Python `None` for an absent
  key is modelled by `jget` returning `Json.null`.
* Python's `float(str)` conversion is modelled by `pyFloatOfString` over
  ASCII strings: optional surrounding whitespace, optional sign, then
  `inf`/`infinity`/`nan` (case-insensitive) or a decimal literal with
  optional fraction and exponent, with underscores permitted only between
  digits.
-/

/-- A Python `float` value as used by the guard: finite (exact rational),
signed infinity, or NaN. -/
inductive FloatVal where
  | fin (q : ℚ)
  | inf (neg : Bool)
  | nan
deriving DecidableEq, Repr

/-- Python's `<` on floats: ordinary order on finite values, infinities at
the ends, and every comparison involving NaN is `False`. -/
def fvLt : FloatVal → FloatVal → Bool
  | .fin a, .fin b => a < b
  | .fin _, .inf neg => !neg
  | .inf neg, .fin _ => neg
  | .inf n1, .inf n2 => n1 && !n2
  | .nan, _ => false
  | _, .nan => false

theorem fvLt_irrefl (a : FloatVal) : fvLt a a = false := by
  cases a with
  | fin q => simp [fvLt]
  | inf neg => cases neg <;> simp [fvLt]
  | nan => simp [fvLt]

/-- A JSON-decoded Python value (`json.loads` output): `None`, `bool`,
a number, a string, a list, or a dict. -/
inductive Json where
  | null
  | bool (b : Bool)
  | num (q : ℚ)
  | str (s : String)
  | arr (elems : List Json)
  | obj (fields : List (String × Json))

/-- `d.get(k)` on a decoded JSON dict: Python returns `None` when the key
is absent, which is indistinguishable from an explicit JSON `null`. -/
def jget (fields : List (String × Json)) (k : String) : Json :=
  match fields with
  | [] => Json.null
  | (k1, v) :: rest => if k1 = k then v else jget rest k

/-- ASCII whitespace stripped by Python's `float(str)`. -/
def isPyWs (c : Char) : Bool :=
  c = ' ' || c = '\t' || c = '\n' || c = '\r' ||
    c = Char.ofNat 11 || c = Char.ofNat 12

/-- Digit-string to natural number (digits only). -/
def natOfDigits (ds : List Char) : ℕ :=
  ds.foldl (fun n c => n * 10 + (c.toNat - 48)) 0

/-- Every underscore must sit between two digits (CPython's numeric-literal
underscore rule for `float(str)`). -/
def underscoresOk : List Char → Bool
  | [] => true
  | '_' :: _ => false
  | [_] => true
  | c1 :: c2 :: rest =>
      if c2 = '_' then
        match rest with
        | [] => false
        | c3 :: _ => c1.isDigit && c3.isDigit && underscoresOk rest
      else underscoresOk (c2 :: rest)

/-- Parse the decimal part `digits [. digits] [(e|E) [sign] digits]` of a
Python float literal (underscores already removed); `none` on a malformed
literal. -/
def parseDecimal (cs : List Char) : Option ℚ :=
  let intPart := cs.takeWhile (·.isDigit)
  let rest1 := cs.dropWhile (·.isDigit)
  let (fracPart, rest2) : List Char × List Char :=
    match rest1 with
    | '.' :: tl => (tl.takeWhile (fun c => c.isDigit), tl.dropWhile (fun c => c.isDigit))
    | _ => ([], rest1)
  if intPart.isEmpty && fracPart.isEmpty then none
  else
    let mantNum : ℕ :=
      natOfDigits intPart * 10 ^ fracPart.length + natOfDigits fracPart
    match rest2 with
    | [] => some (mkRat mantNum (10 ^ fracPart.length))
    | e :: tl =>
        if e = 'e' || e = 'E' then
          let (expNeg, ds) :=
            match tl with
            | '+' :: tl2 => (false, tl2)
            | '-' :: tl2 => (true, tl2)
            | _ => (false, tl)
          if ds.isEmpty || !ds.all (·.isDigit) then none
          else
            let ex : ℕ := natOfDigits ds
            some (if expNeg then mkRat mantNum (10 ^ fracPart.length * 10 ^ ex)
                  else mkRat (mantNum * 10 ^ ex) (10 ^ fracPart.length))
        else none

/-- Python's `float(str)`: strip whitespace, optional sign, then
`inf`/`infinity`/`nan` (case-insensitive) or a decimal literal.  `none`
models a `ValueError`. -/
def pyFloatOfString (s : String) : Option FloatVal :=
  let cs := ((s.data.dropWhile isPyWs).reverse.dropWhile isPyWs).reverse
  let (negSign, body) :=
    match cs with
    | '+' :: tl => (false, tl)
    | '-' :: tl => (true, tl)
    | _ => (false, cs)
  let lowered := body.map Char.toLower
  if lowered = "inf".data || lowered = "infinity".data then
    some (FloatVal.inf negSign)
  else if lowered = "nan".data then
    some FloatVal.nan
  else if !underscoresOk body then none
  else
    match parseDecimal (body.filter (· ≠ '_')) with
    | none => none
    | some q => some (FloatVal.fin (if negSign then -q else q))

/-- `to_float_or_none(v)`: `None` stays unknown; otherwise `float(v)`,
with `TypeError`/`ValueError` (lists, dicts, unparsable strings) mapped to
unknown.  `float` on a bool gives `1.0`/`0.0`, on a number the number
itself, on a string the parsed literal. -/
def to_float_or_none : Json → Option FloatVal
  | .null => none
  | .bool b => some (FloatVal.fin (if b then 1 else 0))
  | .num q => some (FloatVal.fin q)
  | .str s => pyFloatOfString s
  | .arr _ => none
  | .obj _ => none

/-- `GuardThresholds`: the four independently-optional limits
(`None` = unconstrained). -/
structure GuardThresholds where
  sla_percent_min : Option FloatVal
  ttft_p99_ms_max : Option FloatVal
  request_error_rate_percent_max : Option FloatVal
  upstream_error_rate_percent_max : Option FloatVal
deriving DecidableEq, Repr

/-- `GuardSnapshot`: the four independently-optional observations
(`None` = telemetry unavailable). -/
structure GuardSnapshot where
  sla : Option FloatVal
  ttft_p99_ms : Option FloatVal
  request_error_rate_percent : Option FloatVal
  upstream_error_rate_percent : Option FloatVal
deriving DecidableEq, Repr

/-- `parse_envelope_data(payload)`: the payload must be a dict whose
`code` compares equal to `0` in Python (`0`, `0.0` or `False`) and whose
`data` entry is a dict; otherwise a `RuntimeError` (modelled as
`Except.error`). -/
def parse_envelope_data (payload : Json) : Except String (List (String × Json)) :=
  match payload with
  | .obj fields =>
      let codeOk : Bool :=
        match jget fields "code" with
        | .num q => q == 0
        | .bool b => !b
        | _ => false
      if !codeOk then .error "api error"
      else
        match jget fields "data" with
        | .obj dataFields => .ok dataFields
        | _ => .error "invalid response data"
  | _ => .error "invalid response payload"

/-- `parse_thresholds(data)`: each limit decoded independently from its
own key via `to_float_or_none`. -/
def parse_thresholds (data : List (String × Json)) : GuardThresholds :=
  { sla_percent_min := to_float_or_none (jget data "sla_percent_min")
    ttft_p99_ms_max := to_float_or_none (jget data "ttft_p99_ms_max")
    request_error_rate_percent_max :=
      to_float_or_none (jget data "request_error_rate_percent_max")
    upstream_error_rate_percent_max :=
      to_float_or_none (jget data "upstream_error_rate_percent_max") }

/-- The `ttft = data.get("ttft") if isinstance(data.get("ttft"), dict)
else \x7b\x7d` step of `parse_snapshot`. -/
def ttftFields : Json → List (String × Json)
  | .obj fields => fields
  | _ => []

/-- `parse_snapshot(data)`: the latency observation lives in a nested
`ttft` dict (replaced by `\x7b\x7d` when absent or not a dict); the other
three are decoded from their own top-level keys. -/
def parse_snapshot (data : List (String × Json)) : GuardSnapshot :=
  { sla := to_float_or_none (jget data "sla")
    ttft_p99_ms := to_float_or_none (jget (ttftFields (jget data "ttft")) "p99_ms")
    request_error_rate_percent := to_float_or_none (jget data "error_rate")
    upstream_error_rate_percent :=
      to_float_or_none (jget data "upstream_error_rate") }

/-- The four gated metrics, in the evaluator's fixed order. -/
inductive Metric where
  | sla
  | ttft
  | reqErr
  | upErr
deriving DecidableEq, Repr

/-- The canonical metric order of `evaluate`. -/
def metricOrder : List Metric := [.sla, .ttft, .reqErr, .upErr]

/-- One breached metric: its name, the observed value and the limit
(the structured content of the message line `evaluate` appends). -/
structure Violation where
  metric : Metric
  actual : FloatVal
  limit : FloatVal
deriving DecidableEq, Repr

/-- First `if`-block of `evaluate`: SLA present on both sides and
strictly below the minimum. -/
def slaCheck (snapshot : GuardSnapshot) (thresholds : GuardThresholds) :
    List Violation :=
  match thresholds.sla_percent_min, snapshot.sla with
  | some tmin, some a =>
      if fvLt a tmin then [⟨.sla, a, tmin⟩] else []
  | _, _ => []

/-- Second `if`-block of `evaluate`: TTFT P99 present on both sides and
strictly above the maximum. -/
def ttftCheck (snapshot : GuardSnapshot) (thresholds : GuardThresholds) :
    List Violation :=
  match thresholds.ttft_p99_ms_max, snapshot.ttft_p99_ms with
  | some tmax, some a =>
      if fvLt tmax a then [⟨.ttft, a, tmax⟩] else []
  | _, _ => []

/-- Third `if`-block of `evaluate`: request error rate present on both
sides and strictly above the maximum. -/
def reqErrCheck (snapshot : GuardSnapshot) (thresholds : GuardThresholds) :
    List Violation :=
  match thresholds.request_error_rate_percent_max,
      snapshot.request_error_rate_percent with
  | some tmax, some a =>
      if fvLt tmax a then [⟨.reqErr, a, tmax⟩] else []
  | _, _ => []

/-- Fourth `if`-block of `evaluate`: upstream error rate present on both
sides and strictly above the maximum. -/
def upErrCheck (snapshot : GuardSnapshot) (thresholds : GuardThresholds) :
    List Violation :=
  match thresholds.upstream_error_rate_percent_max,
      snapshot.upstream_error_rate_percent with
  | some tmax, some a =>
      if fvLt tmax a then [⟨.upErr, a, tmax⟩] else []
  | _, _ => []

/-- `evaluate(snapshot, thresholds)`: the four sequential `if`-blocks
appending to `violations` in source order. -/
def evaluate (snapshot : GuardSnapshot) (thresholds : GuardThresholds) :
    List Violation :=
  slaCheck snapshot thresholds ++ ttftCheck snapshot thresholds ++
    reqErrCheck snapshot thresholds ++ upErrCheck snapshot thresholds

/-- Threshold field selected by metric. -/
def thresholdField (t : GuardThresholds) : Metric → Option FloatVal
  | .sla => t.sla_percent_min
  | .ttft => t.ttft_p99_ms_max
  | .reqErr => t.request_error_rate_percent_max
  | .upErr => t.upstream_error_rate_percent_max

/-- Snapshot field selected by metric. -/
def snapshotField (s : GuardSnapshot) : Metric → Option FloatVal
  | .sla => s.sla
  | .ttft => s.ttft_p99_ms
  | .reqErr => s.request_error_rate_percent
  | .upErr => s.upstream_error_rate_percent

/-- Which remote reads a guard run performed, in order. -/
inductive FetchTag where
  | thresholds
  | overview
deriving DecidableEq, Repr

/-- One remote-read step of `main`: the transport result of
`request_json` (`Except.error` = `HTTPError`/`URLError`) followed by
`parse_envelope_data`. -/
def envelopeStep (fetch : Except String Json) :
    Except String (List (String × Json)) :=
  match fetch with
  | .error e => .error e
  | .ok payload => parse_envelope_data payload

/-- The `try`-block of the guard's `main`, given the transport outcomes of
the two reads: fetch and parse thresholds first; on its failure return
status 1 without performing the overview read; otherwise fetch and parse
the snapshot (failure again status 1); otherwise map `evaluate` to status
0 (no violations) or 2 (some violations).  The second component records
which reads were performed. -/
def runGuardMain (tFetch sFetch : Except String Json) : ℕ × List FetchTag :=
  match envelopeStep tFetch with
  | .error _ => (1, [.thresholds])
  | .ok tdata =>
      match envelopeStep sFetch with
      | .error _ => (1, [.thresholds, .overview])
      | .ok sdata =>
          let violations := evaluate (parse_snapshot sdata) (parse_thresholds tdata)
          (if violations.isEmpty then 0 else 2, [.thresholds, .overview])

/-- The drill's `THRESHOLDS` table, as served by the stub host. -/
def THRESHOLDS : List (String × Json) :=
  [("sla_percent_min", .num (mkRat 995 10)),
   ("ttft_p99_ms_max", .num 900),
   ("request_error_rate_percent_max", .num 2),
   ("upstream_error_rate_percent_max", .num 2)]

/-- One row of the drill's `STAGE_SNAPSHOTS` table. -/
structure StageSnapshot where
  sla : ℚ
  ttft : ℚ
  error_rate : ℚ
  upstream_error_rate : ℚ

/-- The drill's `STAGE_SNAPSHOTS` table. -/
def STAGE_SNAPSHOTS : List (String × StageSnapshot) :=
  [("A", ⟨mkRat 9978 100, 780, mkRat 120 100, mkRat 105 100⟩),
   ("B", ⟨mkRat 9982 100, 730, mkRat 105 100, mkRat 92 100⟩),
   ("C", ⟨mkRat 9986 100, 680, mkRat 88 100, mkRat 80 100⟩),
   ("D", ⟨mkRat 9989 100, 640, mkRat 72 100, mkRat 67 100⟩),
   ("rollback", ⟨mkRat 9710 100, 1550, mkRat 630 100, mkRat 560 100⟩)]

/-- The stub host's threshold response body. -/
def thresholdEnvelope : Json :=
  .obj [("code", .num 0), ("message", .str "success"), ("data", .obj THRESHOLDS)]

/-- The stub host's overview payload `data` dict for a stage (unknown
stages fall back to stage `A`). -/
def overviewData (stage : String) : List (String × Json) :=
  let snap := match STAGE_SNAPSHOTS.lookup stage with
    | some s => s
    | none => ⟨mkRat 9978 100, 780, mkRat 120 100, mkRat 105 100⟩
  [("sla", .num snap.sla),
   ("error_rate", .num snap.error_rate),
   ("upstream_error_rate", .num snap.upstream_error_rate),
   ("ttft", .obj [("p99_ms", .num snap.ttft)])]

/-- The stub host's overview response body for a stage. -/
def overviewEnvelope (stage : String) : Json :=
  .obj [("code", .num 0), ("message", .str "success"),
        ("data", .obj (overviewData stage))]

/-- The drill's `batch_plan`: ramp stages with traffic-ratio labels. -/
def batch_plan : List (String × String) :=
  [("A", "5%"), ("B", "20%"), ("C", "50%"), ("D", "100%")]

/-- One drill stage record: stage id, ratio label, observed guard exit
status, and the pass flag (`code == 0`). -/
structure StageResult where
  stage : String
  ratio : String
  code : ℕ
  ok : Bool
deriving DecidableEq, Repr

/-- The outcome of one drill execution. -/
structure DrillOutcome where
  stageResults : List StageResult
  rollback_code : ℕ
  rollback_triggered : Bool
  overall : Bool
  exitCode : ℕ
deriving DecidableEq, Repr

/-- The drill's `main`, given the guard exit status each stage run
observes: record every ramp-stage status verbatim, fold `all_pass`
(initially true, conjoined with `code == 0` per stage), run the rollback
stage, set `rollback_triggered := code == 2`, and derive the overall
verdict `all_pass and rollback_triggered` (exit 0 iff it holds). -/
def drillMain (run : String → ℕ) : DrillOutcome :=
  let stageResults := batch_plan.map fun p =>
    { stage := p.1, ratio := p.2, code := run p.1, ok := run p.1 == 0 : StageResult }
  let all_pass := stageResults.foldl (fun acc r => acc && r.ok) true
  let rollback_code := run "rollback"
  let rollback_triggered := rollback_code == 2
  { stageResults := stageResults
    rollback_code := rollback_code
    rollback_triggered := rollback_triggered
    overall := all_pass && rollback_triggered
    exitCode := if all_pass && rollback_triggered then 0 else 1 }

/-- The drill's `main` with stage invocations that may raise (an
`Except.error` models `run_guard` raising, e.g. the subprocess spawn
failing).  The drill starts the stub host, runs the stages in sequence
with no `try`/`finally`, and only reaches `server.shutdown()` /
`server.server_close()` on the straight-line path after the report is
written; an exception from any stage propagates out of `main` with the
host still listening.  The second component is `true` iff the host is
still listening when `main` exits. -/
def drillMainE (run : String → Except String ℕ) : Except String ℕ × Bool :=
  let body : Except String ℕ := do
    let a ← run "A"
    let b ← run "B"
    let c ← run "C"
    let d ← run "D"
    let all_pass := (a == 0) && (b == 0) && (c == 0) && (d == 0)
    let rb ← run "rollback"
    pure (if all_pass && (rb == 2) then 0 else 1)
  match body with
  | .error e => (.error e, true)
  | .ok code => (.ok code, false)

/-- C4: with the drill's thresholds {availability-min 99.5, latency-max
900, request-error-max 2.0, upstream-error-max 2.0}, the ramp snapshot
{99.78, 780, 1.20, 1.05} evaluates to no violations and the guard run
reaches status 0, while the rollback snapshot {97.10, 1550, 6.30, 5.60}
evaluates to exactly four violations, one per metric, in the fixed metric
order, and the guard run reaches status 2. -/
theorem drill_concrete_eval :
    evaluate (parse_snapshot (overviewData "A")) (parse_thresholds THRESHOLDS) = [] ∧
    evaluate (parse_snapshot (overviewData "rollback")) (parse_thresholds THRESHOLDS) =
      [⟨.sla, .fin (mkRat 9710 100), .fin (mkRat 995 10)⟩,
       ⟨.ttft, .fin 1550, .fin 900⟩,
       ⟨.reqErr, .fin (mkRat 630 100), .fin 2⟩,
       ⟨.upErr, .fin (mkRat 560 100), .fin 2⟩] ∧
    (runGuardMain (.ok thresholdEnvelope) (.ok (overviewEnvelope "A"))).1 = 0 ∧
    (runGuardMain (.ok thresholdEnvelope) (.ok (overviewEnvelope "rollback"))).1 = 2 := by
  decide

lemma slaCheck_cases (s : GuardSnapshot) (t : GuardThresholds) :
    slaCheck s t = [] ∨
      ∃ a lim, t.sla_percent_min = some lim ∧ s.sla = some a ∧
        fvLt a lim = true ∧ slaCheck s t = [⟨.sla, a, lim⟩] := by
  unfold slaCheck
  cases ht : t.sla_percent_min with
  | none => exact Or.inl rfl
  | some lim =>
      cases hs : s.sla with
      | none => exact Or.inl rfl
      | some a =>
          by_cases hlt : fvLt a lim = true
          · exact Or.inr ⟨a, lim, rfl, rfl, hlt, by simp [hlt]⟩
          · exact Or.inl (by simp [hlt])

lemma ttftCheck_cases (s : GuardSnapshot) (t : GuardThresholds) :
    ttftCheck s t = [] ∨
      ∃ a lim, t.ttft_p99_ms_max = some lim ∧ s.ttft_p99_ms = some a ∧
        fvLt lim a = true ∧ ttftCheck s t = [⟨.ttft, a, lim⟩] := by
  unfold ttftCheck
  cases ht : t.ttft_p99_ms_max with
  | none => exact Or.inl rfl
  | some lim =>
      cases hs : s.ttft_p99_ms with
      | none => exact Or.inl rfl
      | some a =>
          by_cases hlt : fvLt lim a = true
          · exact Or.inr ⟨a, lim, rfl, rfl, hlt, by simp [hlt]⟩
          · exact Or.inl (by simp [hlt])

lemma reqErrCheck_cases (s : GuardSnapshot) (t : GuardThresholds) :
    reqErrCheck s t = [] ∨
      ∃ a lim, t.request_error_rate_percent_max = some lim ∧
        s.request_error_rate_percent = some a ∧
        fvLt lim a = true ∧ reqErrCheck s t = [⟨.reqErr, a, lim⟩] := by
  unfold reqErrCheck
  cases ht : t.request_error_rate_percent_max with
  | none => exact Or.inl rfl
  | some lim =>
      cases hs : s.request_error_rate_percent with
      | none => exact Or.inl rfl
      | some a =>
          by_cases hlt : fvLt lim a = true
          · exact Or.inr ⟨a, lim, rfl, rfl, hlt, by simp [hlt]⟩
          · exact Or.inl (by simp [hlt])

lemma upErrCheck_cases (s : GuardSnapshot) (t : GuardThresholds) :
    upErrCheck s t = [] ∨
      ∃ a lim, t.upstream_error_rate_percent_max = some lim ∧
        s.upstream_error_rate_percent = some a ∧
        fvLt lim a = true ∧ upErrCheck s t = [⟨.upErr, a, lim⟩] := by
  unfold upErrCheck
  cases ht : t.upstream_error_rate_percent_max with
  | none => exact Or.inl rfl
  | some lim =>
      cases hs : s.upstream_error_rate_percent with
      | none => exact Or.inl rfl
      | some a =>
          by_cases hlt : fvLt lim a = true
          · exact Or.inr ⟨a, lim, rfl, rfl, hlt, by simp [hlt]⟩
          · exact Or.inl (by simp [hlt])

lemma mem_slaCheck (s : GuardSnapshot) (t : GuardThresholds) {v : Violation}
    (hv : v ∈ slaCheck s t) :
    v.metric = .sla ∧ ∃ lim, t.sla_percent_min = some lim ∧ s.sla = some v.actual ∧
      v.limit = lim ∧ fvLt v.actual lim = true := by
  rcases slaCheck_cases s t with h | ⟨a, lim, ht, hs, hlt, h⟩ <;> rw [h] at hv
  · cases hv
  · simp only [List.mem_singleton] at hv
    subst hv
    exact ⟨rfl, lim, ht, hs, rfl, hlt⟩

lemma mem_ttftCheck (s : GuardSnapshot) (t : GuardThresholds) {v : Violation}
    (hv : v ∈ ttftCheck s t) :
    v.metric = .ttft ∧ ∃ lim, t.ttft_p99_ms_max = some lim ∧
      s.ttft_p99_ms = some v.actual ∧ v.limit = lim ∧ fvLt lim v.actual = true := by
  rcases ttftCheck_cases s t with h | ⟨a, lim, ht, hs, hlt, h⟩ <;> rw [h] at hv
  · cases hv
  · simp only [List.mem_singleton] at hv
    subst hv
    exact ⟨rfl, lim, ht, hs, rfl, hlt⟩

lemma mem_reqErrCheck (s : GuardSnapshot) (t : GuardThresholds) {v : Violation}
    (hv : v ∈ reqErrCheck s t) :
    v.metric = .reqErr ∧ ∃ lim, t.request_error_rate_percent_max = some lim ∧
      s.request_error_rate_percent = some v.actual ∧ v.limit = lim ∧
      fvLt lim v.actual = true := by
  rcases reqErrCheck_cases s t with h | ⟨a, lim, ht, hs, hlt, h⟩ <;> rw [h] at hv
  · cases hv
  · simp only [List.mem_singleton] at hv
    subst hv
    exact ⟨rfl, lim, ht, hs, rfl, hlt⟩

lemma mem_upErrCheck (s : GuardSnapshot) (t : GuardThresholds) {v : Violation}
    (hv : v ∈ upErrCheck s t) :
    v.metric = .upErr ∧ ∃ lim, t.upstream_error_rate_percent_max = some lim ∧
      s.upstream_error_rate_percent = some v.actual ∧ v.limit = lim ∧
      fvLt lim v.actual = true := by
  rcases upErrCheck_cases s t with h | ⟨a, lim, ht, hs, hlt, h⟩ <;> rw [h] at hv
  · cases hv
  · simp only [List.mem_singleton] at hv
    subst hv
    exact ⟨rfl, lim, ht, hs, rfl, hlt⟩

lemma mem_evaluate_elim (s : GuardSnapshot) (t : GuardThresholds) {v : Violation}
    (hv : v ∈ evaluate s t) :
    v ∈ slaCheck s t ∨ v ∈ ttftCheck s t ∨ v ∈ reqErrCheck s t ∨
      v ∈ upErrCheck s t := by
  simpa [evaluate, List.mem_append, or_assoc] using hv

/-- C2: a metric contributes a violation only when both its threshold and
its observed value are present; if either side of a metric is `None`,
`evaluate` emits no violation for that metric, whatever the other side
holds. -/
theorem evaluate_requires_both_sides (s : GuardSnapshot) (t : GuardThresholds)
    (m : Metric)
    (h : thresholdField t m = none ∨ snapshotField s m = none) :
    ∀ v ∈ evaluate s t, v.metric ≠ m := by
  intro v hv heq
  rcases mem_evaluate_elim s t hv with h1 | h1 | h1 | h1
  · obtain ⟨hm, lim, ht, hs, -, -⟩ := mem_slaCheck s t h1
    rw [hm] at heq
    subst heq
    simp only [thresholdField, snapshotField] at h
    rcases h with h | h
    · rw [ht] at h; cases h
    · rw [hs] at h; cases h
  · obtain ⟨hm, lim, ht, hs, -, -⟩ := mem_ttftCheck s t h1
    rw [hm] at heq
    subst heq
    simp only [thresholdField, snapshotField] at h
    rcases h with h | h
    · rw [ht] at h; cases h
    · rw [hs] at h; cases h
  · obtain ⟨hm, lim, ht, hs, -, -⟩ := mem_reqErrCheck s t h1
    rw [hm] at heq
    subst heq
    simp only [thresholdField, snapshotField] at h
    rcases h with h | h
    · rw [ht] at h; cases h
    · rw [hs] at h; cases h
  · obtain ⟨hm, lim, ht, hs, -, -⟩ := mem_upErrCheck s t h1
    rw [hm] at heq
    subst heq
    simp only [thresholdField, snapshotField] at h
    rcases h with h | h
    · rw [ht] at h; cases h
    · rw [hs] at h; cases h

/-- Witness for C2 at a concrete input: SLA threshold 99.5 with unknown
SLA telemetry, observed availability 0 for no other metric, yields no
SLA violation. -/
theorem evaluate_requires_both_sides_witness :
    (thresholdField ⟨some (.fin (mkRat 995 10)), none, none, none⟩ Metric.sla = none ∨
      snapshotField ⟨none, some (.fin 0), none, none⟩ Metric.sla = none) ∧
    ∀ v ∈ evaluate ⟨none, some (.fin 0), none, none⟩
        ⟨some (.fin (mkRat 995 10)), none, none, none⟩, v.metric ≠ Metric.sla :=
  ⟨Or.inr rfl,
    evaluate_requires_both_sides ⟨none, some (.fin 0), none, none⟩
      ⟨some (.fin (mkRat 995 10)), none, none, none⟩ Metric.sla (Or.inr rfl)⟩

/-- The comparison direction `evaluate` applies per metric: availability
breaches strictly below the minimum, the other three strictly above the
maximum. -/
def breachDir (m : Metric) (a lim : FloatVal) : Bool :=
  match m with
  | .sla => fvLt a lim
  | .ttft => fvLt lim a
  | .reqErr => fvLt lim a
  | .upErr => fvLt lim a

lemma evaluate_mem_intro_sla (s : GuardSnapshot) (t : GuardThresholds)
    {v : Violation} (hv : v ∈ slaCheck s t) : v ∈ evaluate s t := by
  simp only [evaluate, List.mem_append]
  exact Or.inl (Or.inl (Or.inl hv))

lemma evaluate_mem_intro_ttft (s : GuardSnapshot) (t : GuardThresholds)
    {v : Violation} (hv : v ∈ ttftCheck s t) : v ∈ evaluate s t := by
  simp only [evaluate, List.mem_append]
  exact Or.inl (Or.inl (Or.inr hv))

lemma evaluate_mem_intro_reqErr (s : GuardSnapshot) (t : GuardThresholds)
    {v : Violation} (hv : v ∈ reqErrCheck s t) : v ∈ evaluate s t := by
  simp only [evaluate, List.mem_append]
  exact Or.inl (Or.inr hv)

lemma evaluate_mem_intro_upErr (s : GuardSnapshot) (t : GuardThresholds)
    {v : Violation} (hv : v ∈ upErrCheck s t) : v ∈ evaluate s t := by
  simp only [evaluate, List.mem_append]
  exact Or.inr hv

/-- C3: when both sides of a metric are present, `evaluate` flags that
metric exactly under the strict comparison in the metric's direction
(availability strictly below its minimum; the other three strictly above
their maxima), and a value exactly equal to its limit is never flagged. -/
theorem evaluate_strict_inequality (s : GuardSnapshot) (t : GuardThresholds)
    (m : Metric) (a lim : FloatVal)
    (hs : snapshotField s m = some a) (ht : thresholdField t m = some lim) :
    ((∃ v ∈ evaluate s t, v.metric = m) ↔ breachDir m a lim = true) ∧
    (a = lim → ∀ v ∈ evaluate s t, v.metric ≠ m) := by
  have main : (∃ v ∈ evaluate s t, v.metric = m) ↔ breachDir m a lim = true := by
    cases m with
    | sla =>
        simp only [snapshotField, thresholdField] at hs ht
        constructor
        · rintro ⟨v, hv, hm⟩
          rcases mem_evaluate_elim s t hv with h1 | h1 | h1 | h1
          · obtain ⟨-, lim2, ht2, hs2, -, hlt⟩ := mem_slaCheck s t h1
            rw [ht] at ht2
            rw [hs] at hs2
            cases ht2
            cases hs2
            simpa [breachDir] using hlt
          · exact absurd hm (by simp [(mem_ttftCheck s t h1).1])
          · exact absurd hm (by simp [(mem_reqErrCheck s t h1).1])
          · exact absurd hm (by simp [(mem_upErrCheck s t h1).1])
        · intro hb
          refine ⟨⟨.sla, a, lim⟩, evaluate_mem_intro_sla s t ?_, rfl⟩
          unfold slaCheck
          rw [ht, hs]
          simpa [breachDir] using hb
    | ttft =>
        simp only [snapshotField, thresholdField] at hs ht
        constructor
        · rintro ⟨v, hv, hm⟩
          rcases mem_evaluate_elim s t hv with h1 | h1 | h1 | h1
          · exact absurd hm (by simp [(mem_slaCheck s t h1).1])
          · obtain ⟨-, lim2, ht2, hs2, -, hlt⟩ := mem_ttftCheck s t h1
            rw [ht] at ht2
            rw [hs] at hs2
            cases ht2
            cases hs2
            simpa [breachDir] using hlt
          · exact absurd hm (by simp [(mem_reqErrCheck s t h1).1])
          · exact absurd hm (by simp [(mem_upErrCheck s t h1).1])
        · intro hb
          refine ⟨⟨.ttft, a, lim⟩, evaluate_mem_intro_ttft s t ?_, rfl⟩
          unfold ttftCheck
          rw [ht, hs]
          simpa [breachDir] using hb
    | reqErr =>
        simp only [snapshotField, thresholdField] at hs ht
        constructor
        · rintro ⟨v, hv, hm⟩
          rcases mem_evaluate_elim s t hv with h1 | h1 | h1 | h1
          · exact absurd hm (by simp [(mem_slaCheck s t h1).1])
          · exact absurd hm (by simp [(mem_ttftCheck s t h1).1])
          · obtain ⟨-, lim2, ht2, hs2, -, hlt⟩ := mem_reqErrCheck s t h1
            rw [ht] at ht2
            rw [hs] at hs2
            cases ht2
            cases hs2
            simpa [breachDir] using hlt
          · exact absurd hm (by simp [(mem_upErrCheck s t h1).1])
        · intro hb
          refine ⟨⟨.reqErr, a, lim⟩, evaluate_mem_intro_reqErr s t ?_, rfl⟩
          unfold reqErrCheck
          rw [ht, hs]
          simpa [breachDir] using hb
    | upErr =>
        simp only [snapshotField, thresholdField] at hs ht
        constructor
        · rintro ⟨v, hv, hm⟩
          rcases mem_evaluate_elim s t hv with h1 | h1 | h1 | h1
          · exact absurd hm (by simp [(mem_slaCheck s t h1).1])
          · exact absurd hm (by simp [(mem_ttftCheck s t h1).1])
          · exact absurd hm (by simp [(mem_reqErrCheck s t h1).1])
          · obtain ⟨-, lim2, ht2, hs2, -, hlt⟩ := mem_upErrCheck s t h1
            rw [ht] at ht2
            rw [hs] at hs2
            cases ht2
            cases hs2
            simpa [breachDir] using hlt
        · intro hb
          refine ⟨⟨.upErr, a, lim⟩, evaluate_mem_intro_upErr s t ?_, rfl⟩
          unfold upErrCheck
          rw [ht, hs]
          simpa [breachDir] using hb
  refine ⟨main, ?_⟩
  intro heq v hv hm
  subst heq
  have : breachDir m a a = true := main.mp ⟨v, hv, hm⟩
  cases m <;> simp [breachDir, fvLt_irrefl] at this

/-- Witness for C3 at a concrete input: availability threshold 99.5 with
observed availability exactly 99.5 — present on both sides, not below the
minimum, hence no SLA violation. -/
theorem evaluate_strict_inequality_witness :
    (snapshotField ⟨some (.fin (mkRat 995 10)), none, none, none⟩ Metric.sla =
        some (.fin (mkRat 995 10))) ∧
    ((∃ v ∈ evaluate ⟨some (.fin (mkRat 995 10)), none, none, none⟩
          ⟨some (.fin (mkRat 995 10)), none, none, none⟩, v.metric = Metric.sla) ↔
      breachDir Metric.sla (.fin (mkRat 995 10)) (.fin (mkRat 995 10)) = true) :=
  ⟨rfl,
    (evaluate_strict_inequality ⟨some (.fin (mkRat 995 10)), none, none, none⟩
      ⟨some (.fin (mkRat 995 10)), none, none, none⟩ Metric.sla
      (.fin (mkRat 995 10)) (.fin (mkRat 995 10)) rfl rfl).1⟩

lemma slaCheck_map_sublist (s : GuardSnapshot) (t : GuardThresholds) :
    List.Sublist ((slaCheck s t).map Violation.metric) [Metric.sla] := by
  rcases slaCheck_cases s t with h | ⟨a, lim, -, -, -, h⟩ <;> rw [h] <;> simp

lemma ttftCheck_map_sublist (s : GuardSnapshot) (t : GuardThresholds) :
    List.Sublist ((ttftCheck s t).map Violation.metric) [Metric.ttft] := by
  rcases ttftCheck_cases s t with h | ⟨a, lim, -, -, -, h⟩ <;> rw [h] <;> simp

lemma reqErrCheck_map_sublist (s : GuardSnapshot) (t : GuardThresholds) :
    List.Sublist ((reqErrCheck s t).map Violation.metric) [Metric.reqErr] := by
  rcases reqErrCheck_cases s t with h | ⟨a, lim, -, -, -, h⟩ <;> rw [h] <;> simp

lemma upErrCheck_map_sublist (s : GuardSnapshot) (t : GuardThresholds) :
    List.Sublist ((upErrCheck s t).map Violation.metric) [Metric.upErr] := by
  rcases upErrCheck_cases s t with h | ⟨a, lim, -, -, -, h⟩ <;> rw [h] <;> simp

/-- C7: `evaluate` is a function of its two inputs alone — identical
snapshot/threshold pairs give identical violation lists — and the metrics
of the violations it returns always follow the fixed order availability,
latency, request errors, upstream errors (a sublist of `metricOrder`). -/
theorem evaluate_deterministic_fixed_order (s s2 : GuardSnapshot)
    (t t2 : GuardThresholds) (hs : s = s2) (ht : t = t2) :
    evaluate s t = evaluate s2 t2 ∧
    List.Sublist ((evaluate s t).map Violation.metric) metricOrder := by
  subst hs
  subst ht
  refine ⟨rfl, ?_⟩
  have h1 := slaCheck_map_sublist s t
  have h2 := ttftCheck_map_sublist s t
  have h3 := reqErrCheck_map_sublist s t
  have h4 := upErrCheck_map_sublist s t
  have : metricOrder =
      ([Metric.sla] ++ [Metric.ttft]) ++ [Metric.reqErr] ++ [Metric.upErr] := rfl
  rw [this, evaluate, List.map_append, List.map_append, List.map_append]
  exact ((h1.append h2).append h3).append h4

/-- Witness for C7 at a concrete input: the rollback-stage evaluation is
reproducible and its metric list follows the fixed order. -/
theorem evaluate_deterministic_fixed_order_witness :
    evaluate (parse_snapshot (overviewData "rollback")) (parse_thresholds THRESHOLDS) =
      evaluate (parse_snapshot (overviewData "rollback")) (parse_thresholds THRESHOLDS) ∧
    List.Sublist ((evaluate (parse_snapshot (overviewData "rollback"))
        (parse_thresholds THRESHOLDS)).map Violation.metric) metricOrder :=
  evaluate_deterministic_fixed_order
    (parse_snapshot (overviewData "rollback")) (parse_snapshot (overviewData "rollback"))
    (parse_thresholds THRESHOLDS) (parse_thresholds THRESHOLDS) rfl rfl

/-- C1: the guard run's status is exactly one of 0, 1, 2, and the three
are never conflated: 0 iff both reads parsed and `evaluate` returned no
violations, 2 iff both reads parsed and `evaluate` returned at least one
violation, and 1 iff a transport error, non-success envelope code or
unparseable response structure stopped evaluation at one of the reads. -/
theorem guard_exit_status_contract (tFetch sFetch : Except String Json) :
    ((runGuardMain tFetch sFetch).1 = 0 ∨ (runGuardMain tFetch sFetch).1 = 1 ∨
      (runGuardMain tFetch sFetch).1 = 2) ∧
    ((runGuardMain tFetch sFetch).1 = 0 ↔
      ∃ tdata sdata, envelopeStep tFetch = .ok tdata ∧
        envelopeStep sFetch = .ok sdata ∧
        evaluate (parse_snapshot sdata) (parse_thresholds tdata) = []) ∧
    ((runGuardMain tFetch sFetch).1 = 2 ↔
      ∃ tdata sdata, envelopeStep tFetch = .ok tdata ∧
        envelopeStep sFetch = .ok sdata ∧
        evaluate (parse_snapshot sdata) (parse_thresholds tdata) ≠ []) ∧
    ((runGuardMain tFetch sFetch).1 = 1 ↔
      (∃ e, envelopeStep tFetch = .error e) ∨
      (∃ tdata e, envelopeStep tFetch = .ok tdata ∧
        envelopeStep sFetch = .error e)) := by
  unfold runGuardMain
  cases h1 : envelopeStep tFetch with
  | error e1 =>
      refine ⟨Or.inr (Or.inl rfl), ?_, ?_, ?_⟩ <;> simp [h1]
  | ok tdata =>
      cases h2 : envelopeStep sFetch with
      | error e2 =>
          refine ⟨Or.inr (Or.inl rfl), ?_, ?_, ?_⟩ <;> simp [h1, h2]
      | ok sdata =>
          by_cases hv : evaluate (parse_snapshot sdata) (parse_thresholds tdata) = []
          · refine ⟨Or.inl (by simp [hv]), ?_, ?_, ?_⟩ <;>
              simp [h1, h2, hv, List.isEmpty_iff]
          · refine ⟨Or.inr (Or.inr (by simp [List.isEmpty_iff, hv])), ?_, ?_, ?_⟩ <;>
              simp [h1, h2, hv, List.isEmpty_iff]

/-- C5: the guard performs the threshold read first; when that read fails
(transport error, non-success envelope code, or a payload that is not a
keyed structure) the run exits with status 1 having performed only the
threshold read — the snapshot read is not attempted, whatever its outcome
would have been. -/
theorem guard_threshold_failure_short_circuit (tFetch sFetch : Except String Json)
    (e : String) (h : envelopeStep tFetch = .error e) :
    runGuardMain tFetch sFetch = (1, [FetchTag.thresholds]) := by
  unfold runGuardMain
  rw [h]

/-- Witness for C5 at a concrete input: an envelope whose status code is 1
fails the threshold step, and the run exits 1 having performed only the
threshold read, even though the snapshot read would have succeeded. -/
theorem guard_threshold_failure_short_circuit_witness :
    envelopeStep (.ok (Json.obj [("code", Json.num 1)])) = .error "api error" ∧
    runGuardMain (.ok (Json.obj [("code", Json.num 1)]))
        (.ok (overviewEnvelope "A")) = (1, [FetchTag.thresholds]) :=
  ⟨rfl,
    guard_threshold_failure_short_circuit (.ok (Json.obj [("code", Json.num 1)]))
      (.ok (overviewEnvelope "A")) "api error" rfl⟩

/-- C6: the drill records every stage's observed status verbatim, and its
overall verdict is true exactly when the four ramp stages (run in order
before the rollback stage) all produced status 0 and the rollback stage
produced status 2; any other combination makes the verdict false. -/
theorem drill_overall_verdict (run : String → ℕ) :
    ((drillMain run).overall = true ↔
      run "A" = 0 ∧ run "B" = 0 ∧ run "C" = 0 ∧ run "D" = 0 ∧
        run "rollback" = 2) ∧
    (drillMain run).stageResults.map StageResult.code =
      [run "A", run "B", run "C", run "D"] ∧
    (drillMain run).rollback_code = run "rollback" := by
  refine ⟨?_, rfl, rfl⟩
  simp only [drillMain, batch_plan, List.map_cons, List.map_nil, List.foldl_cons,
    List.foldl_nil, Bool.true_and, Bool.and_eq_true, beq_iff_eq]
  tauto

/-- Dict update `d[k] = v` as seen by `jget` (Python dict keys are
unique; only lookup behaviour matters here). -/
def jset (d : List (String × Json)) (k : String) (v : Json) :
    List (String × Json) :=
  (k, v) :: d.filter (fun p => !(p.1 == k))

/-- `true` iff the value is a dict (Python `isinstance(v, dict)`). -/
def jsonIsObj : Json → Bool
  | .obj _ => true
  | _ => false

lemma jget_jset_self (d : List (String × Json)) (k : String) (v : Json) :
    jget (jset d k v) k = v := by
  simp [jset, jget]

lemma jget_filter_ne (d : List (String × Json)) (k k2 : String) (h : k2 ≠ k) :
    jget (d.filter (fun p => !(p.1 == k))) k2 = jget d k2 := by
  induction d with
  | nil => rfl
  | cons p rest ih =>
      obtain ⟨k1, v1⟩ := p
      rw [List.filter_cons]
      by_cases hk : k1 = k
      · subst hk
        have h2 : ¬ k1 = k2 := fun hc => h hc.symm
        simp [jget, h2, ih]
      · simp [jget, hk, ih]

lemma jget_jset_other (d : List (String × Json)) (k k2 : String) (v : Json)
    (h : k2 ≠ k) : jget (jset d k v) k2 = jget d k2 := by
  have h2 : ¬ k = k2 := fun hc => h hc.symm
  simp only [jset, jget, h2, if_false]
  exact jget_filter_ne d k k2 h

/-- The payload key holding each metric's threshold. -/
def thresholdKey : Metric → String
  | .sla => "sla_percent_min"
  | .ttft => "ttft_p99_ms_max"
  | .reqErr => "request_error_rate_percent_max"
  | .upErr => "upstream_error_rate_percent_max"

/-- The top-level payload key holding each metric's observation (`ttft`
holds the nested dict carrying `p99_ms`). -/
def snapshotKey : Metric → String
  | .sla => "sla"
  | .ttft => "ttft"
  | .reqErr => "error_rate"
  | .upErr => "upstream_error_rate"

lemma thresholdField_parse (d : List (String × Json)) (m : Metric) :
    thresholdField (parse_thresholds d) m =
      to_float_or_none (jget d (thresholdKey m)) := by
  cases m <;> rfl

lemma snapshotField_parse_flat (d : List (String × Json)) (m : Metric)
    (h : m ≠ .ttft) :
    snapshotField (parse_snapshot d) m =
      to_float_or_none (jget d (snapshotKey m)) := by
  cases m with
  | sla => rfl
  | ttft => exact absurd rfl h
  | reqErr => rfl
  | upErr => rfl

lemma snapshotField_parse_ttft (d : List (String × Json)) :
    snapshotField (parse_snapshot d) .ttft =
      to_float_or_none (jget (ttftFields (jget d "ttft")) "p99_ms") := rfl

lemma thresholdKey_injective (m m2 : Metric) (h : m2 ≠ m) :
    thresholdKey m2 ≠ thresholdKey m := by
  cases m <;> cases m2 <;> first
    | exact absurd rfl h
    | decide

lemma snapshotKey_injective (m m2 : Metric) (h : m2 ≠ m) :
    snapshotKey m2 ≠ snapshotKey m := by
  cases m <;> cases m2 <;> first
    | exact absurd rfl h
    | decide

lemma ttftFields_not_obj (v : Json) (h : jsonIsObj v = false) :
    ttftFields v = [] := by
  cases v with
  | obj fields => exact absurd h (by simp [jsonIsObj])
  | null => rfl
  | bool b => rfl
  | num q => rfl
  | str s => rfl
  | arr elems => rfl

/-- C8: each numeric field of a threshold or snapshot payload is decoded
independently — replacing any single metric's entry with a bad value (a
null, a non-numeric value; a missing key reads back as null) turns exactly
that metric's field into `None` while every other field of the same
structure parses as before, and no exception is raised. -/
theorem parse_one_bad_field_is_isolated (data : List (String × Json))
    (m : Metric) (bad : Json) (hbad : to_float_or_none bad = none)
    (hobj : jsonIsObj bad = false) :
    (thresholdField (parse_thresholds (jset data (thresholdKey m) bad)) m = none ∧
      ∀ m2, m2 ≠ m →
        thresholdField (parse_thresholds (jset data (thresholdKey m) bad)) m2 =
          thresholdField (parse_thresholds data) m2) ∧
    (snapshotField (parse_snapshot (jset data (snapshotKey m) bad)) m = none ∧
      ∀ m2, m2 ≠ m →
        snapshotField (parse_snapshot (jset data (snapshotKey m) bad)) m2 =
          snapshotField (parse_snapshot data) m2) := by
  refine ⟨⟨?_, ?_⟩, ?_, ?_⟩
  · rw [thresholdField_parse, jget_jset_self, hbad]
  · intro m2 hm2
    rw [thresholdField_parse, thresholdField_parse,
      jget_jset_other _ _ _ _ (thresholdKey_injective m m2 hm2)]
  · by_cases hm : m = .ttft
    · subst hm
      rw [snapshotField_parse_ttft]
      have : jget (jset data (snapshotKey .ttft) bad) "ttft" = bad :=
        jget_jset_self data "ttft" bad
      rw [this, ttftFields_not_obj bad hobj]
      rfl
    · rw [snapshotField_parse_flat _ _ hm, jget_jset_self, hbad]
  · intro m2 hm2
    by_cases hm2t : m2 = .ttft
    · subst hm2t
      have hmt : Metric.ttft ≠ m := hm2
      have hco : jget (jset data (snapshotKey m) bad) "ttft" = jget data "ttft" :=
        jget_jset_other data (snapshotKey m) "ttft" bad
          (snapshotKey_injective m .ttft hmt)
      rw [snapshotField_parse_ttft, snapshotField_parse_ttft, hco]
    · rw [snapshotField_parse_flat _ _ hm2t, snapshotField_parse_flat _ _ hm2t,
        jget_jset_other _ _ _ _ (snapshotKey_injective m m2 hm2)]

/-- Witness for C8 at a concrete input: overwriting the SLA entry of the
drill's threshold payload with the non-numeric string "oops" blanks only
the SLA limit, leaving the other three limits parsed as before. -/
theorem parse_one_bad_field_is_isolated_witness :
    to_float_or_none (Json.str "oops") = none ∧
    thresholdField
      (parse_thresholds (jset THRESHOLDS (thresholdKey Metric.sla) (Json.str "oops")))
      Metric.sla = none ∧
    ∀ m2, m2 ≠ Metric.sla →
      thresholdField
        (parse_thresholds (jset THRESHOLDS (thresholdKey Metric.sla) (Json.str "oops")))
        m2 = thresholdField (parse_thresholds THRESHOLDS) m2 :=
  ⟨by decide,
    (parse_one_bad_field_is_isolated THRESHOLDS Metric.sla (Json.str "oops")
      (by decide) rfl).1.1,
    (parse_one_bad_field_is_isolated THRESHOLDS Metric.sla (Json.str "oops")
      (by decide) rfl).1.2⟩

/-- C10: the numeric-field decoder accepts whatever Python's `float()`
accepts, not only numbers: every string parsing as a float becomes a
present value (e.g. "123" and "nan"), booleans become 1.0/0.0, and only
`None` and values `float()` rejects (unparsable strings, lists, dicts)
become unknown. -/
theorem to_float_or_none_accepts_floatlike (s : String) (f : FloatVal)
    (h : pyFloatOfString s = some f) :
    to_float_or_none (Json.str s) = some f ∧
    to_float_or_none (Json.bool true) = some (.fin 1) ∧
    to_float_or_none (Json.bool false) = some (.fin 0) ∧
    to_float_or_none (Json.str "123") = some (.fin 123) ∧
    to_float_or_none (Json.str "nan") = some .nan ∧
    to_float_or_none Json.null = none ∧
    (∀ s2, pyFloatOfString s2 = none → to_float_or_none (Json.str s2) = none) ∧
    (∀ elems, to_float_or_none (Json.arr elems) = none) ∧
    (∀ fields, to_float_or_none (Json.obj fields) = none) := by
  refine ⟨h, rfl, rfl, by decide, by decide, rfl, ?_, fun _ => rfl, fun _ => rfl⟩
  intro s2 h2
  exact h2

/-- Witness for C10 at a concrete input: " 1e3 " parses as 1000.0 and is
a present value. -/
theorem to_float_or_none_accepts_floatlike_witness :
    pyFloatOfString " 1e3 " = some (.fin 1000) ∧
    to_float_or_none (Json.str " 1e3 ") = some (.fin 1000) :=
  ⟨by decide,
    (to_float_or_none_accepts_floatlike " 1e3 " (.fin 1000) (by decide)).1⟩

/-- C9 counterexample: when the first stage invocation raises (e.g. the
guard subprocess cannot be spawned), the drill's `main` propagates the
exception without reaching `server.shutdown()` — the stub host is still
listening on that exit path, contradicting "the host is shut down and
closed on every exit path". -/
theorem drill_host_left_listening_on_throw :
    (drillMainE (fun _ => .error "spawn failure")).2 = true := rfl

/-- C9 amended: on every exit path on which no stage invocation raises —
including runs where stages fail their expected statuses, which are
recorded, not raised — the stub host is shut down and closed before the
harness returns; an exception from a stage invocation instead propagates
with the host still listening. -/
theorem drill_host_closed_when_no_throw (run : String → Except String ℕ)
    (h : ∀ stage, ∃ n, run stage = .ok n) :
    (drillMainE run).2 = false ∧ ∃ n, (drillMainE run).1 = .ok n := by
  obtain ⟨a, hA⟩ := h "A"
  obtain ⟨b, hB⟩ := h "B"
  obtain ⟨c, hC⟩ := h "C"
  obtain ⟨d, hD⟩ := h "D"
  obtain ⟨r, hR⟩ := h "rollback"
  simp [drillMainE, hA, hB, hC, hD, hR, Bind.bind, Except.bind, Pure.pure, Except.pure]

/-- Witness for the amended C9 at a concrete input: all stage invocations
returning status 0 reach teardown (host closed), even though the rollback
expectation fails. -/
theorem drill_host_closed_when_no_throw_witness :
    (drillMainE (fun _ => .ok 0)).2 = false ∧
    ∃ n, (drillMainE (fun _ => .ok 0)).1 = .ok n :=
  drill_host_closed_when_no_throw (fun _ => .ok 0) (fun _ => ⟨0, rfl⟩)
